import Mathlib

/-!
Verification development for the tesla-apiscraper polling core
(`apiscraper.py`).  The Python source is shallowly embedded below:

* loosely-typed Python scalars become the tagged union `Val`
  (numbers are modelled as integers; `Val.none` is Python's `None`);
* the per-category dictionaries `old_values[request]` become
  association lists (`Fields`), and the whole `old_values` dict the
  association list `Store`;
* `StateMonitor.request_state_group` becomes `request_state_group`
  (its per-category loop, with its early `break` on an unchanged
  timestamp, is `processCats`; its per-field body is `processElement`);
* `StateMonitor.ongoing_activity_status` becomes
  `ongoing_activity_status` (it reads `time.time()`, which is passed
  explicitly as `now`);
* `StateMonitor.check_states` becomes `check_states`; the code after
  its `try/except` block (the `interval == 0` substitution, the
  charging tier, and the no-change ladder) is `check_states_core`;
* `calculate_next_wakeup` becomes `calculate_next_wakeup`;
* the final sleep clamp of the main loop (lines 443-450) becomes
  `sleep_duration`.
-/

/-- Loosely-typed Python scalar values as stored in `old_values`.
Numeric values are modelled as integers. -/
inductive Val where
  | none
  | bool (b : Bool)
  | int (n : Int)
  | str (s : String)
deriving DecidableEq, Repr

/-- Python truthiness of a `Val` (`bool(v)`). -/
def truthy : Val → Bool
  | Val.none => false
  | Val.bool b => b
  | Val.int n => n != 0
  | Val.str s => s != ""

/-- Numeric `v > m` comparison; non-numeric values compare false. -/
def valGt : Val → Int → Bool
  | Val.int n, m => n > m
  | _, _ => false

/-- Numeric `v < m` comparison; non-numeric values compare false. -/
def valLt : Val → Int → Bool
  | Val.int n, m => n < m
  | _, _ => false

/-- Python `str.lower()` (ASCII), written out so it evaluates by
kernel reduction. -/
def strLower (s : String) : String := String.mk (s.data.map Char.toLower)

/-- Python `v.lower()` for string values; other values map to `""`. -/
def valLower : Val → String
  | Val.str s => strLower s
  | _ => ""

/-- Python `abs(t - now) <= 2` for an integer value, otherwise false
(models line 153 of the source). -/
def withinTwo (v : Val) (now : Int) : Bool :=
  match v with
  | Val.int t => decide ((t - now).natAbs ≤ 2)
  | _ => false

/-- A category's field dictionary (`old_values[request]`). -/
abbrev Fields := List (String × Val)

/-- Python `d.get(key, default)`. -/
def fget : Fields → String → Val → Val
  | [], _, d => d
  | (k, v) :: rest, key, d => if k = key then v else fget rest key d

/-- Python `d[key] = value`. -/
def fset : Fields → String → Val → Fields
  | [], key, nv => [(key, nv)]
  | (k, v) :: rest, key, nv =>
      if k = key then (key, nv) :: rest else (k, v) :: fset rest key nv

/-- The whole `old_values` dictionary: category name to fields. -/
abbrev Store := List (String × Fields)

/-- Category lookup in the store (`old_values[request]`). -/
def sget : Store → String → Fields
  | [], _ => []
  | (k, f) :: rest, key => if k = key then f else sget rest key

/-- Category update in the store. -/
def sset : Store → String → Fields → Store
  | [], key, nf => [(key, nf)]
  | (k, f) :: rest, key, nf =>
      if k = key then (key, nf) :: rest else (k, f) :: sset rest key nf

/-- The fixed category tuple `self.requests` (line 112). -/
def requests : List String :=
  ["charge_state", "climate_state", "drive_state", "gui_settings", "vehicle_state"]

/-- `old_values` as initialised in `StateMonitor.__init__` (line 117). -/
def initStore : Store :=
  [("charge_state", []), ("climate_state", []), ("drive_state", []),
   ("gui_settings", []), ("vehicle_state", [])]

/-- The `a_ignore` list (line 48). -/
def a_ignore : List String := ["media_state", "software_update", "speed_limit_mode"]

/-- The polling backoff ladder `self.pollTimes` (line 122). -/
def pollTimes : List Int :=
  [2, 5, 15, 30, 45, 60, 120, 120, 120, 120, 120, 120, 120, 120, 120, 120, 2000, 120]

/-- One category of the `vehicle_data` response: its `timestamp` and
its remaining elements (line 208). -/
structure CatResult where
  timestamp : Int
  fields : List (String × Val)
deriving DecidableEq, Repr

/-- The `vehicle_data` response, one `CatResult` per category. -/
structure Response where
  charge_state : CatResult
  climate_state : CatResult
  drive_state : CatResult
  gui_settings : CatResult
  vehicle_state : CatResult
deriving DecidableEq, Repr

/-- `r['response'][request]` for the five category names. -/
def Response.get (r : Response) (req : String) : CatResult :=
  if req = "charge_state" then r.charge_state
  else if req = "climate_state" then r.climate_state
  else if req = "drive_state" then r.drive_state
  else if req = "gui_settings" then r.gui_settings
  else r.vehicle_state

/-- The body of the `for element in sorted(result)` loop of
`request_state_group` (lines 224-263): takes the stored fields of the
current category and the accumulated `json_body['fields']`, and
returns both updated. -/
def processElement (stored : Fields) (out : Fields) (element : String) (v : Val) :
    Fields × Fields :=
  if element ∈ ["timestamp", "gps_as_of", "left_temp_direction",
                "right_temp_direction", "charge_port_latch"] then
    (stored, out)
  else
    let old_value := fget stored element (Val.str "")
    if element = "vehicle_name" ∧ truthy v = false then
      (stored, out)
    else
      let nv :=
        if element = "speed" ∧ v = Val.none then Val.int 0
        else if v ≠ old_value ∧ v = Val.none ∧ element = "shift_state" then old_value
        else v
      let corrected :=
        if nv ≠ Val.none ∧ element ∉ a_ignore ∧ element = "charger_voltage" ∧
           valLt nv 0 = true then Val.int 0
        else nv
      let out1 :=
        if nv ≠ Val.none ∧ element ∉ a_ignore then fset out element corrected else out
      (fset stored element corrected, out1)

/-- The `for request in self.requests` loop of `request_state_group`
(lines 207-280).  Returns the updated store and, per processed
category, the `json_body['fields']` accumulated for it.  An unchanged
category timestamp executes `break` (line 212), abandoning the
remaining categories. -/
def processCats : Store → Response → List String → Store × List (String × Fields)
  | s, _, [] => (s, [])
  | s, resp, req :: rest =>
      let res := Response.get resp req
      let stored := sget s req
      if fget stored "timestamp" (Val.str "") = Val.int res.timestamp then
        (s, [])
      else
        let stored1 := fset stored "timestamp" (Val.int res.timestamp)
        let pr := res.fields.foldl
          (fun acc p => processElement acc.1 acc.2 p.1 p.2) (stored1, ([] : Fields))
        let s1 := sset s req pr.1
        let rest1 := processCats s1 resp rest
        (rest1.1, (req, pr.2) :: rest1.2)

/-- The measurements actually written to influx: only categories whose
field map is non-empty (line 278). -/
def writtenMeasurements (outs : List (String × Fields)) : List (String × Fields) :=
  outs.filter (fun p => decide (p.2 ≠ []))

/-- `StateMonitor.ongoing_activity_status` (lines 130-174).  `now` is
`int(time.time())` as read on line 153. -/
def ongoing_activity_status (s : Store) (now : Int) : String :=
  if fget (sget s "drive_state") "shift_state" (Val.str "") = Val.str "R" ∨
     fget (sget s "drive_state") "shift_state" (Val.str "") = Val.str "D" ∨
     fget (sget s "drive_state") "shift_state" (Val.str "") = Val.str "N" ∨
     valGt (if truthy (fget (sget s "drive_state") "speed" (Val.int 0)) = true
            then fget (sget s "drive_state") "speed" (Val.int 0) else Val.int 0) 0 = true then
    "driving"
  else if valLower (fget (sget s "charge_state") "charging_state" (Val.str "")) = "charging" ∨
          valLower (fget (sget s "charge_state") "charging_state" (Val.str "")) = "starting" then
    "charging"
  else if valGt (fget (sget s "charge_state") "charger_voltage" (Val.int 0)) 10 = true ∧
          valGt (fget (sget s "charge_state") "charger_actual_current" (Val.int 0)) 0 = true then
    "charging"
  else if truthy (fget (sget s "charge_state") "scheduled_charging_pending" (Val.bool false)) = true ∧
          withinTwo (fget (sget s "charge_state") "scheduled_charging_start_time" (Val.int 0)) now = true then
    "charging"
  else if truthy (fget (sget s "climate_state") "is_climate_on" (Val.bool false)) = true then
    "conditioning"
  else if ¬(fget (sget s "vehicle_state") "center_display_state" (Val.int 0) = Val.int 0 ∨
            fget (sget s "vehicle_state") "center_display_state" (Val.int 0) = Val.int 5) then
    if fget (sget s "vehicle_state") "center_display_state" (Val.int 0) = Val.int 2 then
      "screen on (normal)"
    else if fget (sget s "vehicle_state") "center_display_state" (Val.int 0) = Val.int 3 then
      "screen on (charging)"
    else if fget (sget s "vehicle_state") "center_display_state" (Val.int 0) = Val.int 7 then
      "screen on (sentry)"
    else if fget (sget s "vehicle_state") "center_display_state" (Val.int 0) = Val.int 8 then
      "screen on (dog mode)"
    else
      "screen on"
  else
    "idle"

/-- `StateMonitor.request_state_group` (lines 193-285): processes the
response into the store, then returns the updated store together with
the boolean `current_state.lower() != 'idle'` (line 285). -/
def request_state_group (s : Store) (resp : Response) (now : Int) : Store × Bool :=
  let pr := processCats s resp requests
  (pr.1, decide (strLower (ongoing_activity_status pr.1 now) ≠ "idle"))

/-- Configuration values consumed by `check_states`
(`a_awake_poll_secs`, `a_allow_sleep` from `config.py`). -/
structure Config where
  a_awake_poll_secs : Int
  a_allow_sleep : Int
deriving DecidableEq, Repr

/-- Outcome of the snapshot fetch in `check_states`: success,
`ContinuePollingError` (transport timeout), or `HTTPError`. -/
inductive FetchResult where
  | ok (resp : Response)
  | timeout
  | httpError
deriving DecidableEq, Repr

/-- Result of one `check_states` call: the returned interval, the
store afterwards, `self.noChangesPollCount` afterwards, and whether
`self.vehicle['state']` was set to `'asleep'` (line 307). -/
structure CSResult where
  interval : Int
  store : Store
  count : Nat
  asleep : Bool
deriving DecidableEq, Repr

/-- Lines 316-342 of `check_states`: the `interval == 0`
substitution, the supercharger/charging tier, and the no-change
backoff ladder.  Returns the interval and the new
`noChangesPollCount`. -/
def check_states_core (cfg : Config) (s : Store) (any_change : Bool)
    (interval : Int) (count : Nat) : Int × Nat :=
  let interval1 := if interval = 0 then cfg.a_awake_poll_secs else interval
  if valLower (fget (sget s "charge_state") "charging_state" (Val.str "")) = "charging" then
    (if fget (sget s "charge_state") "fast_charger_present" (Val.str "") = Val.str "true"
     then 5 else 15, count)
  else if any_change = true then
    (cfg.a_awake_poll_secs, 0)
  else
    let c := count + 1
    (if c - 1 < pollTimes.length then pollTimes.getD (c - 1) 0
     else pollTimes.getD (pollTimes.length - 1) 0, c)

/-- `StateMonitor.check_states` (lines 287-342).  On `HTTPError` the
function returns early (line 312/314); on a timeout the store is left
as it was and the vehicle is marked asleep; on success the store is
updated by `request_state_group` and the drive-state override of
lines 296-302 runs before `check_states_core`. -/
def check_states (cfg : Config) (s : Store) (fetch : FetchResult) (now : Int)
    (interval : Int) (count : Nat) : CSResult :=
  match fetch with
  | FetchResult.httpError =>
      if cfg.a_allow_sleep = 1 then ⟨interval, s, count, false⟩
      else ⟨-1, s, count, false⟩
  | FetchResult.timeout =>
      let ic := check_states_core cfg s false interval count
      ⟨ic.1, s, ic.2, true⟩
  | FetchResult.ok resp =>
      let pr := request_state_group s resp now
      let shift := fget (sget pr.1 "drive_state") "shift_state" (Val.str "")
      let interval2 :=
        if shift = Val.str "R" ∨ shift = Val.str "D" then cfg.a_awake_poll_secs
        else interval
      let ch :=
        if shift = Val.str "R" ∨ shift = Val.str "D" then true else pr.2
      let ic := check_states_core cfg pr.1 ch interval2 count
      ⟨ic.1, pr.1, ic.2, false⟩

/-- `calculate_next_wakeup` (lines 93-106).  `maxs` is
`a_maximum_sleep`, `now` is `int(time.time())`, `cur` is the
`current_wake_up_time` argument (only used for logging in the
source). -/
def calculate_next_wakeup (maxs now cur : Int) (s : Store) : Int :=
  let wakeup_time := now + maxs
  if truthy (fget (sget s "charge_state") "scheduled_charging_pending" (Val.bool false)) = true then
    match fget (sget s "charge_state") "scheduled_charging_start_time" (Val.int 0) with
    | Val.int t => if t > 0 ∧ t < wakeup_time then t else wakeup_time
    | _ => wakeup_time
  else wakeup_time

/-- The final sleep clamp of the main loop (lines 443-450): the
duration actually passed to `time.sleep`. -/
def sleep_duration (now poll_interval next_wakeup : Int) : Int :=
  if now + poll_interval > next_wakeup then next_wakeup - now else poll_interval

/-! ### Concrete fixtures used by counterexamples and witnesses -/

/-- A category response with timestamp 1 and no further fields. -/
def emptyCat : CatResult := ⟨1, []⟩

/-- Response changing only `charge_state.battery_level` (a non-ignored
field) on an otherwise idle vehicle. -/
def respIdleChange : Response :=
  { charge_state := ⟨1, [("battery_level", Val.int 50)]⟩, climate_state := emptyCat,
    drive_state := emptyCat, gui_settings := emptyCat, vehicle_state := emptyCat }

/-- Store whose `charge_state` timestamp is already 1. -/
def s2store : Store :=
  [("charge_state", [("timestamp", Val.int 1)]), ("climate_state", []), ("drive_state", []),
   ("gui_settings", []), ("vehicle_state", [])]

/-- Response with a stale `charge_state` timestamp (1) but strictly
advanced timestamps (2) for the other categories, `drive_state`
carrying a new gear. -/
def resp2 : Response :=
  { charge_state := ⟨1, []⟩, climate_state := ⟨2, []⟩,
    drive_state := ⟨2, [("shift_state", Val.str "D")]⟩,
    gui_settings := ⟨2, []⟩, vehicle_state := ⟨2, []⟩ }

/-- Configuration with `a_awake_poll_secs = 1`, `a_allow_sleep = 1`. -/
def cfg1 : Config := ⟨1, 1⟩

/-- Response reporting gear "D" and `charging_state` "Charging" at
the same time. -/
def resp3 : Response :=
  { charge_state := ⟨1, [("charging_state", Val.str "Charging")]⟩, climate_state := emptyCat,
    drive_state := ⟨1, [("shift_state", Val.str "D")]⟩, gui_settings := emptyCat,
    vehicle_state := emptyCat }

/-- Response reporting gear "D" only. -/
def respDrive : Response :=
  { charge_state := emptyCat, climate_state := emptyCat,
    drive_state := ⟨1, [("shift_state", Val.str "D")]⟩, gui_settings := emptyCat,
    vehicle_state := emptyCat }

/-- Response reporting `charging_state = "Charging"` only. -/
def respCharging : Response :=
  { charge_state := ⟨1, [("charging_state", Val.str "Charging")]⟩, climate_state := emptyCat,
    drive_state := emptyCat, gui_settings := emptyCat, vehicle_state := emptyCat }

/-- Response reporting `charging_state = "Starting"` only. -/
def resp6 : Response :=
  { charge_state := ⟨1, [("charging_state", Val.str "Starting")]⟩, climate_state := emptyCat,
    drive_state := emptyCat, gui_settings := emptyCat, vehicle_state := emptyCat }

/-- Response reporting climate pre-conditioning only. -/
def respCond : Response :=
  { charge_state := emptyCat, climate_state := ⟨1, [("is_climate_on", Val.bool true)]⟩,
    drive_state := emptyCat, gui_settings := emptyCat, vehicle_state := emptyCat }

/-- Store with a pending scheduled charge whose start time (10) is in
the past relative to `now = 100`. -/
def s8 : Store :=
  [("charge_state", [("scheduled_charging_pending", Val.bool true),
                     ("scheduled_charging_start_time", Val.int 10)]),
   ("climate_state", []), ("drive_state", []), ("gui_settings", []), ("vehicle_state", [])]

/-- Store with a pending scheduled charge at time 1000 and nothing
else set. -/
def sT : Store :=
  [("charge_state", [("scheduled_charging_pending", Val.bool true),
                     ("scheduled_charging_start_time", Val.int 1000)]),
   ("climate_state", []), ("drive_state", []), ("gui_settings", []), ("vehicle_state", [])]

/-! ### Helper lemmas -/

/-- If the driving condition of line 135 holds, the classifier
answers `"driving"`. -/
theorem oas_first (s : Store) (now : Int)
    (h1 : fget (sget s "drive_state") "shift_state" (Val.str "") = Val.str "R" ∨
          fget (sget s "drive_state") "shift_state" (Val.str "") = Val.str "D" ∨
          fget (sget s "drive_state") "shift_state" (Val.str "") = Val.str "N" ∨
          valGt (if truthy (fget (sget s "drive_state") "speed" (Val.int 0)) = true
                 then fget (sget s "drive_state") "speed" (Val.int 0) else Val.int 0) 0 = true) :
    ongoing_activity_status s now = "driving" := by
  unfold ongoing_activity_status
  rw [if_pos h1]

/-- If the driving condition fails but the stored charging state reads
"charging" or "starting", the classifier answers `"charging"`. -/
theorem oas_second (s : Store) (now : Int)
    (h1 : ¬(fget (sget s "drive_state") "shift_state" (Val.str "") = Val.str "R" ∨
            fget (sget s "drive_state") "shift_state" (Val.str "") = Val.str "D" ∨
            fget (sget s "drive_state") "shift_state" (Val.str "") = Val.str "N" ∨
            valGt (if truthy (fget (sget s "drive_state") "speed" (Val.int 0)) = true
                   then fget (sget s "drive_state") "speed" (Val.int 0) else Val.int 0) 0 = true))
    (h2 : valLower (fget (sget s "charge_state") "charging_state" (Val.str "")) = "charging" ∨
          valLower (fget (sget s "charge_state") "charging_state" (Val.str "")) = "starting") :
    ongoing_activity_status s now = "charging" := by
  unfold ongoing_activity_status
  rw [if_neg h1, if_pos h2]

/-- A stored gear of "R" or "D" makes the classifier answer
`"driving"` no matter what else is stored. -/
theorem shift_drives (s : Store) (now : Int)
    (h : fget (sget s "drive_state") "shift_state" (Val.str "") = Val.str "R" ∨
         fget (sget s "drive_state") "shift_state" (Val.str "") = Val.str "D") :
    ongoing_activity_status s now = "driving" := by
  rcases h with h | h
  · exact oas_first s now (Or.inl h)
  · exact oas_first s now (Or.inr (Or.inl h))

/-- Every label produced by `ongoing_activity_status` is already
lowercase, so the `.lower()` on line 285 is the identity. -/
theorem labelLower (s : Store) (now : Int) :
    strLower (ongoing_activity_status s now) = ongoing_activity_status s now := by
  have e1 : strLower "driving" = "driving" := rfl
  have e2 : strLower "charging" = "charging" := rfl
  have e3 : strLower "conditioning" = "conditioning" := rfl
  have e4 : strLower "screen on (normal)" = "screen on (normal)" := rfl
  have e5 : strLower "screen on (charging)" = "screen on (charging)" := rfl
  have e6 : strLower "screen on (sentry)" = "screen on (sentry)" := rfl
  have e7 : strLower "screen on (dog mode)" = "screen on (dog mode)" := rfl
  have e8 : strLower "screen on" = "screen on" := rfl
  have e9 : strLower "idle" = "idle" := rfl
  simp only [ongoing_activity_status, apply_ite strLower, e1, e2, e3, e4, e5, e6, e7, e8, e9]

/-- If the classifier answers `"idle"`, the stored gear is neither "R"
nor "D" and the stored charging state does not read "charging". -/
theorem idle_facts (s : Store) (now : Int) (h : ongoing_activity_status s now = "idle") :
    fget (sget s "drive_state") "shift_state" (Val.str "") ≠ Val.str "R" ∧
    fget (sget s "drive_state") "shift_state" (Val.str "") ≠ Val.str "D" ∧
    valLower (fget (sget s "charge_state") "charging_state" (Val.str "")) ≠ "charging" := by
  refine ⟨?_, ?_, ?_⟩
  · intro hR
    rw [shift_drives s now (Or.inl hR)] at h
    exact absurd h (by decide)
  · intro hD
    rw [shift_drives s now (Or.inr hD)] at h
    exact absurd h (by decide)
  · intro hC
    by_cases h1 : fget (sget s "drive_state") "shift_state" (Val.str "") = Val.str "R" ∨
        fget (sget s "drive_state") "shift_state" (Val.str "") = Val.str "D" ∨
        fget (sget s "drive_state") "shift_state" (Val.str "") = Val.str "N" ∨
        valGt (if truthy (fget (sget s "drive_state") "speed" (Val.int 0)) = true
               then fget (sget s "drive_state") "speed" (Val.int 0) else Val.int 0) 0 = true
    · rw [oas_first s now h1] at h
      exact absurd h (by decide)
    · rw [oas_second s now h1 (Or.inl hC)] at h
      exact absurd h (by decide)

/-- If the classifier answers `"charging"`, the stored gear is neither
"R" nor "D" (the driving branch fired first otherwise). -/
theorem charging_facts (s : Store) (now : Int)
    (h : ongoing_activity_status s now = "charging") :
    fget (sget s "drive_state") "shift_state" (Val.str "") ≠ Val.str "R" ∧
    fget (sget s "drive_state") "shift_state" (Val.str "") ≠ Val.str "D" := by
  constructor
  · intro hR
    rw [shift_drives s now (Or.inl hR)] at h
    exact absurd h (by decide)
  · intro hD
    rw [shift_drives s now (Or.inr hD)] at h
    exact absurd h (by decide)

/-- The ladder indexing of lines 336-340 equals a lookup at
`min count 17`. -/
theorem ladder_index (count : Nat) :
    (if (count + 1) - 1 < pollTimes.length then pollTimes.getD ((count + 1) - 1) 0
     else pollTimes.getD (pollTimes.length - 1) 0) = pollTimes.getD (min count 17) 0 := by
  have hlen : pollTimes.length = 18 := rfl
  rcases Nat.lt_or_ge count 18 with hlt | hge
  · have hmin : min count 17 = count := by omega
    rw [hlen, hmin, Nat.add_sub_cancel, if_pos hlt]
  · have hmin : min count 17 = 17 := by omega
    rw [hlen, hmin, Nat.add_sub_cancel, if_neg (by omega)]

/-- When the stored charging state does not read "charging" and no
change was seen, lines 316-342 step the no-change ladder. -/
theorem core_no_change (cfg : Config) (s : Store) (interval : Int) (count : Nat)
    (hch : valLower (fget (sget s "charge_state") "charging_state" (Val.str "")) ≠ "charging") :
    check_states_core cfg s false interval count = (pollTimes.getD (min count 17) 0, count + 1) := by
  unfold check_states_core
  rw [if_neg hch, if_neg (by decide)]
  exact congrArg (fun x => (x, count + 1)) (ladder_index count)

/-- When the stored charging state does not read "charging" and a
change was seen, lines 316-342 reset to the awake interval. -/
theorem core_change (cfg : Config) (s : Store) (interval : Int) (count : Nat)
    (hch : valLower (fget (sget s "charge_state") "charging_state" (Val.str "")) ≠ "charging") :
    check_states_core cfg s true interval count = (cfg.a_awake_poll_secs, 0) := by
  unfold check_states_core
  rw [if_neg hch, if_pos rfl]

/-- When the stored charging state reads "charging", lines 319-325
pick the supercharger tier regardless of `any_change`, the incoming
interval and the streak. -/
theorem core_charging (cfg : Config) (s : Store) (ch : Bool) (interval : Int) (count : Nat)
    (hch : valLower (fget (sget s "charge_state") "charging_state" (Val.str "")) = "charging") :
    check_states_core cfg s ch interval count =
      ((if fget (sget s "charge_state") "fast_charger_present" (Val.str "") = Val.str "true"
        then 5 else 15), count) := by
  unfold check_states_core
  rw [if_pos hch]

/-- Definitional shape of `check_states` on a successful fetch: the
store is the one produced by `request_state_group`, the drive-state
override of lines 296-302 feeds `check_states_core`. -/
theorem check_states_ok_eq (cfg : Config) (s : Store) (resp : Response) (now interval : Int)
    (count : Nat) :
    check_states cfg s (FetchResult.ok resp) now interval count =
      ⟨(check_states_core cfg (processCats s resp requests).1
          (if fget (sget (processCats s resp requests).1 "drive_state") "shift_state" (Val.str "") = Val.str "R" ∨
              fget (sget (processCats s resp requests).1 "drive_state") "shift_state" (Val.str "") = Val.str "D"
           then true else (request_state_group s resp now).2)
          (if fget (sget (processCats s resp requests).1 "drive_state") "shift_state" (Val.str "") = Val.str "R" ∨
              fget (sget (processCats s resp requests).1 "drive_state") "shift_state" (Val.str "") = Val.str "D"
           then cfg.a_awake_poll_secs else interval) count).1,
        (processCats s resp requests).1,
        (check_states_core cfg (processCats s resp requests).1
          (if fget (sget (processCats s resp requests).1 "drive_state") "shift_state" (Val.str "") = Val.str "R" ∨
              fget (sget (processCats s resp requests).1 "drive_state") "shift_state" (Val.str "") = Val.str "D"
           then true else (request_state_group s resp now).2)
          (if fget (sget (processCats s resp requests).1 "drive_state") "shift_state" (Val.str "") = Val.str "R" ∨
              fget (sget (processCats s resp requests).1 "drive_state") "shift_state" (Val.str "") = Val.str "D"
           then cfg.a_awake_poll_secs else interval) count).2,
        false⟩ := rfl

/-- Definitional shape of `check_states` on a transport timeout: the
store is kept, the vehicle is marked asleep, and lines 316-342 run on
the stale store with `any_change = False`. -/
theorem check_states_timeout_eq (cfg : Config) (s : Store) (now interval : Int) (count : Nat) :
    check_states cfg s FetchResult.timeout now interval count =
      ⟨(check_states_core cfg s false interval count).1, s,
        (check_states_core cfg s false interval count).2, true⟩ := rfl

/-! ### Claim theorems -/

/-- C1 counterexample: starting from the initial empty store, an
update whose only content is a change to the non-ignored field
`battery_level` (absent before, `50` after, and indeed stored as `50`)
makes `request_state_group` return `false` — so the return value is
not "some non-ignored field changed". -/
theorem c1_counterexample :
    (request_state_group initStore respIdleChange 0).2 = false ∧
    fget (sget initStore "charge_state") "battery_level" (Val.str "") ≠ Val.int 50 ∧
    fget (sget (request_state_group initStore respIdleChange 0).1 "charge_state")
      "battery_level" (Val.str "") = Val.int 50 := by
  refine ⟨rfl, by decide, rfl⟩

/-- C1 (amended): `request_state_group` returns `true` exactly when
the activity classifier, evaluated on the post-update store, yields a
non-idle label; field-change tracking plays no role in the return
value. -/
theorem c1_amended_return_is_classifier (s : Store) (resp : Response) (now : Int) :
    (request_state_group s resp now).2 = true ↔
      ongoing_activity_status (processCats s resp requests).1 now ≠ "idle" := by
  unfold request_state_group
  dsimp only
  rw [labelLower]
  exact decide_eq_true_iff

/-- C2: with the stored `charge_state` timestamp already equal to the
incoming one (1), but `drive_state` arriving with a strictly advanced
timestamp (2) and a new gear "D", the category loop `break`s at
`charge_state` and leaves the whole store untouched: `drive_state` is
never diffed, stored, or written. -/
theorem c2_break_skips_later_categories :
    processCats s2store resp2 requests = (s2store, []) ∧
    resp2.drive_state.timestamp = 2 ∧
    fget (sget s2store "drive_state") "timestamp" (Val.str "") ≠ Val.int 2 ∧
    fget (sget (processCats s2store resp2 requests).1 "drive_state") "shift_state" (Val.str "")
      ≠ Val.str "D" := by
  refine ⟨rfl, rfl, by decide, by decide⟩

/-- C7: the final clamp of the main loop (lines 443-450) shrinks the
sleep to `next_wakeup - now` whenever `now + interval` overshoots the
forced-wake deadline, never sleeps past that deadline, and in
particular returns 30 for a deadline 30 seconds away and a raw
interval of 120. -/
theorem c7_forced_wake_clamp (now interval next_wakeup : Int) :
    (now + interval > next_wakeup → sleep_duration now interval next_wakeup = next_wakeup - now) ∧
    now + sleep_duration now interval next_wakeup ≤ next_wakeup ∧
    sleep_duration now 120 (now + 30) = 30 := by
  unfold sleep_duration
  refine ⟨fun h => if_pos h, ?_, ?_⟩
  · split_ifs with h <;> omega
  · rw [if_pos (by omega)]
    omega

/-- C7 witness at `now = 100`, `interval = 120`,
`next_wakeup = 130`. -/
theorem c7_witness :
    sleep_duration 100 120 130 = 30 ∧ 100 + sleep_duration 100 120 130 ≤ 130 :=
  ⟨by rw [(c7_forced_wake_clamp 100 120 130).1 (by decide)]; decide,
   (c7_forced_wake_clamp 100 120 130).2.1⟩

/-- C8 counterexample: with a pending scheduled charge whose start
time 10 is in the past of `now = 100` (and `a_maximum_sleep = 50`),
`calculate_next_wakeup` returns the past time 10, not the base-case
deadline 150 the claim requires for a start time that is not in the
future. -/
theorem c8_counterexample :
    calculate_next_wakeup 50 100 0 s8 = 10 ∧ ¬((10 : Int) > 100) ∧ (10 : Int) ≠ 100 + 50 := by
  refine ⟨rfl, by decide, by decide⟩

/-- C8 (amended): `calculate_next_wakeup` returns
`now + a_maximum_sleep`, except that when a scheduled charge is
pending and its start time is positive and earlier than that base
deadline — regardless of whether it is later than `now` — the start
time is returned instead. -/
theorem c8_amended_wakeup_rule (maxs now cur : Int) (s : Store) :
    (truthy (fget (sget s "charge_state") "scheduled_charging_pending" (Val.bool false)) = false →
      calculate_next_wakeup maxs now cur s = now + maxs) ∧
    (∀ t : Int,
      truthy (fget (sget s "charge_state") "scheduled_charging_pending" (Val.bool false)) = true →
      fget (sget s "charge_state") "scheduled_charging_start_time" (Val.int 0) = Val.int t →
      ((t > 0 ∧ t < now + maxs) → calculate_next_wakeup maxs now cur s = t) ∧
      (¬(t > 0 ∧ t < now + maxs) → calculate_next_wakeup maxs now cur s = now + maxs)) := by
  unfold calculate_next_wakeup
  constructor
  · intro h
    rw [h]
    simp
  · intro t hp ht
    rw [hp, ht]
    constructor
    · intro hc
      rw [if_pos rfl]
      show (if t > 0 ∧ t < now + maxs then t else now + maxs) = t
      rw [if_pos hc]
    · intro hc
      rw [if_pos rfl]
      show (if t > 0 ∧ t < now + maxs then t else now + maxs) = now + maxs
      rw [if_neg hc]

/-- C8 witness: pending charge at `t = 40` with `now = 100`,
`a_maximum_sleep = 50` yields 40; no pending charge yields 150. -/
theorem c8_witness :
    calculate_next_wakeup 50 100 0 sT = 150 ∧ calculate_next_wakeup 50 100 0 initStore = 150 := by
  constructor
  · exact ((c8_amended_wakeup_rule 50 100 0 sT).2 1000 (by decide) (by decide)).2 (by decide)
  · exact (c8_amended_wakeup_rule 50 100 0 initStore).1 (by decide)

/-- C9 counterexample: with the forced-wake deadline equal to the
current time, the final clamp of the main loop passes a sleep duration
of 0 to `time.sleep`; no awake-interval substitution happens after the
clamp. -/
theorem c9_counterexample : sleep_duration 100 120 100 = 0 := rfl

/-- Each of the first 18 ladder entries is non-zero. -/
theorem pollTimes_getD_ne_zero : ∀ i : Nat, i < 18 → pollTimes.getD i 0 ≠ 0 := by decide

/-- Lines 316-342 never yield a zero interval when
`a_awake_poll_secs` is non-zero. -/
theorem core_ne_zero (cfg : Config) (s : Store) (ch : Bool) (interval : Int) (count : Nat)
    (hA : cfg.a_awake_poll_secs ≠ 0) : (check_states_core cfg s ch interval count).1 ≠ 0 := by
  by_cases hch : valLower (fget (sget s "charge_state") "charging_state" (Val.str "")) = "charging"
  · rw [core_charging cfg s ch interval count hch]
    dsimp only
    split_ifs <;> decide
  · cases ch
    · rw [core_no_change cfg s interval count hch]
      dsimp only
      exact pollTimes_getD_ne_zero (min count 17) (by omega)
    · rw [core_change cfg s interval count hch]
      exact hA

/-- C9 (amended): `check_states` itself never returns 0 on a
successful or timed-out fetch when `a_awake_poll_secs` is non-zero
(its `interval == 0` substitution applies only to its incoming
argument, before the charging/ladder rules); the zero sleep of the
counterexample arises later, in the main loop's final clamp, which has
no such substitution. -/
theorem c9_amended_nonzero_interval (cfg : Config) (s : Store) (resp : Response)
    (now interval : Int) (count : Nat) (hA : cfg.a_awake_poll_secs ≠ 0) :
    (check_states cfg s (FetchResult.ok resp) now interval count).interval ≠ 0 ∧
    (check_states cfg s FetchResult.timeout now interval count).interval ≠ 0 := by
  constructor
  · rw [check_states_ok_eq]
    exact core_ne_zero cfg _ _ _ count hA
  · rw [check_states_timeout_eq]
    exact core_ne_zero cfg s false interval count hA

/-- C9 witness at a concrete configuration and cycle. -/
theorem c9_witness :
    (check_states cfg1 initStore (FetchResult.ok respIdleChange) 0 30 0).interval ≠ 0 ∧
    (check_states cfg1 initStore FetchResult.timeout 0 30 0).interval ≠ 0 :=
  c9_amended_nonzero_interval cfg1 initStore respIdleChange 0 30 0 (by decide)

/-- C10 counterexample: a store with a pending scheduled charge at
time 1000 classifies as `"charging"` when evaluated at `now = 1000`
but as `"idle"` at `now = 2000` — `ongoing_activity_status` is not a
pure function of the stored state alone. -/
theorem c10_counterexample :
    ongoing_activity_status sT 1000 = "charging" ∧ ongoing_activity_status sT 2000 = "idle" :=
  ⟨rfl, rfl⟩

/-- C10 (amended): the classifier is a pure function of the stored
state and the current time; the only time dependence is the
scheduled-charge proximity check, so whenever
`scheduled_charging_pending` is not truthy, evaluations at any two
times agree. -/
theorem c10_amended_time_independent (s : Store) (now1 now2 : Int)
    (h : truthy (fget (sget s "charge_state") "scheduled_charging_pending" (Val.bool false))
      = false) :
    ongoing_activity_status s now1 = ongoing_activity_status s now2 := by
  unfold ongoing_activity_status
  rw [h]
  simp

/-- C10 witness: with no pending scheduled charge the label is
time-independent. -/
theorem c10_witness : ongoing_activity_status initStore 0 = ongoing_activity_status initStore 5 :=
  c10_amended_time_independent initStore 0 5 (by decide)

/-- C3 counterexample: with stored gear "D" and stored
`charging_state` "Charging" (and `a_awake_poll_secs = 1`), the
classifier does answer `"driving"`, but `check_states` returns the
charging-tier interval 15, not the awake interval — lines 319-325 run
after, and override, the driving override of lines 296-302. -/
theorem c3_counterexample :
    (check_states cfg1 initStore (FetchResult.ok resp3) 0 30 0).interval = 15 ∧
    ongoing_activity_status (processCats initStore resp3 requests).1 0 = "driving" ∧
    cfg1.a_awake_poll_secs = 1 := by
  refine ⟨rfl, rfl, rfl⟩

/-- C3 (amended): when the stored gear is "R" or "D", `classify`
returns `driving`, and the interval equals `a_awake_poll_secs`
provided the stored `charging_state` does not read "charging"
(case-insensitively); when it does, the charging tier wins even while
driving. -/
theorem c3_amended_driving_interval (cfg : Config) (s : Store) (resp : Response)
    (now interval : Int) (count : Nat)
    (hs : fget (sget (processCats s resp requests).1 "drive_state") "shift_state" (Val.str "")
            = Val.str "R" ∨
          fget (sget (processCats s resp requests).1 "drive_state") "shift_state" (Val.str "")
            = Val.str "D")
    (hch : valLower (fget (sget (processCats s resp requests).1 "charge_state") "charging_state"
            (Val.str "")) ≠ "charging") :
    (check_states cfg s (FetchResult.ok resp) now interval count).interval
        = cfg.a_awake_poll_secs ∧
    ongoing_activity_status (processCats s resp requests).1 now = "driving" := by
  constructor
  · rw [check_states_ok_eq]
    dsimp only
    rw [if_pos hs, if_pos hs, core_change cfg _ _ count hch]
  · exact shift_drives _ now hs

/-- C3 witness: gear "D", nothing charging. -/
theorem c3_witness :
    (check_states cfg1 initStore (FetchResult.ok respDrive) 0 30 0).interval
        = cfg1.a_awake_poll_secs ∧
    ongoing_activity_status (processCats initStore respDrive requests).1 0 = "driving" :=
  c3_amended_driving_interval cfg1 initStore respDrive 0 30 0 (Or.inr (by decide)) (by decide)

/-- C4 counterexample: a transport timeout with previous interval 45
on the empty store and a zero streak returns the ladder value 2, not
the previous interval 45 — the ladder is recomputed, not retained. -/
theorem c4_counterexample :
    (check_states cfg1 initStore FetchResult.timeout 0 45 0).interval = 2 ∧ (2 : Int) ≠ 45 :=
  ⟨rfl, by decide⟩

/-- C4 (amended): on a transport timeout the device is marked asleep
for the cycle and the stored data is kept unchanged, but the interval
is recomputed from the stale store with `any_change = False`: the
charging tier if the stored charging state reads "charging", otherwise
the next ladder value — the previous interval is not retained. -/
theorem c4_amended_timeout_recomputes (cfg : Config) (s : Store) (now interval : Int)
    (count : Nat) :
    (check_states cfg s FetchResult.timeout now interval count).asleep = true ∧
    (check_states cfg s FetchResult.timeout now interval count).store = s ∧
    (valLower (fget (sget s "charge_state") "charging_state" (Val.str "")) ≠ "charging" →
      (check_states cfg s FetchResult.timeout now interval count).interval
          = pollTimes.getD (min count 17) 0 ∧
      (check_states cfg s FetchResult.timeout now interval count).count = count + 1) ∧
    (valLower (fget (sget s "charge_state") "charging_state" (Val.str "")) = "charging" →
      (check_states cfg s FetchResult.timeout now interval count).interval =
        (if fget (sget s "charge_state") "fast_charger_present" (Val.str "") = Val.str "true"
         then 5 else 15)) := by
  refine ⟨by rw [check_states_timeout_eq], by rw [check_states_timeout_eq],
    fun hch => ?_, fun hch => ?_⟩
  · rw [check_states_timeout_eq]
    dsimp only
    rw [core_no_change cfg s interval count hch]
    exact ⟨rfl, rfl⟩
  · rw [check_states_timeout_eq]
    dsimp only
    rw [core_charging cfg s false interval count hch]

/-- C4 witness: timeout on the empty store with streak 3. -/
theorem c4_witness :
    (check_states cfg1 initStore FetchResult.timeout 5 45 3).asleep = true ∧
    (check_states cfg1 initStore FetchResult.timeout 5 45 3).store = initStore ∧
    (check_states cfg1 initStore FetchResult.timeout 5 45 3).interval
        = pollTimes.getD (min 3 17) 0 ∧
    (check_states cfg1 initStore FetchResult.timeout 5 45 3).count = 3 + 1 := by
  have h := c4_amended_timeout_recomputes cfg1 initStore 5 45 3
  exact ⟨h.1, h.2.1, (h.2.2.1 (by decide)).1, (h.2.2.1 (by decide)).2⟩

/-- C5: in a cycle whose post-update classification is idle (so
`changed = false`, not in gear, not charging), the returned interval
is the ladder entry at the current streak, clamped at index 17 (value
120), and the streak increments; a cycle with a non-idle
classification (still not in gear "R"/"D" and not charging) resets the
streak to 0 and returns the awake interval, so the next unchanged
cycle starts the ladder over at its first value 2. -/
theorem c5_ladder_progression (cfg : Config) (s : Store) (resp : Response)
    (now interval : Int) (count : Nat) :
    (ongoing_activity_status (processCats s resp requests).1 now = "idle" →
      (check_states cfg s (FetchResult.ok resp) now interval count).interval =
        ([2, 5, 15, 30, 45, 60, 120, 120, 120, 120, 120, 120, 120, 120, 120, 120, 2000, 120] :
          List Int).getD (min count 17) 0 ∧
      (check_states cfg s (FetchResult.ok resp) now interval count).count = count + 1) ∧
    ((ongoing_activity_status (processCats s resp requests).1 now ≠ "idle" ∧
      fget (sget (processCats s resp requests).1 "drive_state") "shift_state" (Val.str "")
        ≠ Val.str "R" ∧
      fget (sget (processCats s resp requests).1 "drive_state") "shift_state" (Val.str "")
        ≠ Val.str "D" ∧
      valLower (fget (sget (processCats s resp requests).1 "charge_state") "charging_state"
        (Val.str "")) ≠ "charging") →
      (check_states cfg s (FetchResult.ok resp) now interval count).interval
          = cfg.a_awake_poll_secs ∧
      (check_states cfg s (FetchResult.ok resp) now interval count).count = 0) := by
  constructor
  · intro h
    obtain ⟨hR, hD, hC⟩ := idle_facts _ now h
    have hb : (request_state_group s resp now).2 = false := by
      unfold request_state_group
      dsimp only
      rw [labelLower, h]
      rfl
    rw [check_states_ok_eq]
    dsimp only
    rw [if_neg (not_or.mpr ⟨hR, hD⟩), if_neg (not_or.mpr ⟨hR, hD⟩), hb,
        core_no_change cfg _ interval count hC]
    exact ⟨rfl, rfl⟩
  · rintro ⟨hne, hR, hD, hC⟩
    have hb : (request_state_group s resp now).2 = true := by
      unfold request_state_group
      dsimp only
      rw [labelLower]
      exact decide_eq_true hne
    rw [check_states_ok_eq]
    dsimp only
    rw [if_neg (not_or.mpr ⟨hR, hD⟩), if_neg (not_or.mpr ⟨hR, hD⟩), hb,
        core_change cfg _ interval count hC]
    exact ⟨rfl, rfl⟩

/-- C5 witness: an idle cycle at streak 7 returns the eighth ladder
value 120 and increments the streak; a conditioning (changed) cycle
resets the streak and returns the awake interval. -/
theorem c5_witness :
    (check_states cfg1 initStore (FetchResult.ok respIdleChange) 0 30 7).interval = 120 ∧
    (check_states cfg1 initStore (FetchResult.ok respIdleChange) 0 30 7).count = 8 ∧
    (check_states cfg1 initStore (FetchResult.ok respCond) 0 30 7).interval
        = cfg1.a_awake_poll_secs ∧
    (check_states cfg1 initStore (FetchResult.ok respCond) 0 30 7).count = 0 := by
  have h1 := (c5_ladder_progression cfg1 initStore respIdleChange 0 30 7).1 (by decide)
  have h2 := (c5_ladder_progression cfg1 initStore respCond 0 30 7).2 (by decide)
  exact ⟨h1.1.trans (by decide), h1.2, h2.1, h2.2⟩

/-- C6 counterexample: with stored `charging_state` "Starting" the
classifier answers `"charging"`, yet `check_states` returns the awake
interval 1 (via the changed branch), not the charging tier 15 or 5 —
the tier applies only when `charging_state` reads "charging". -/
theorem c6_counterexample :
    (check_states cfg1 initStore (FetchResult.ok resp6) 0 30 0).interval = 1 ∧
    ongoing_activity_status (processCats initStore resp6 requests).1 0 = "charging" ∧
    cfg1.a_awake_poll_secs = 1 ∧ ((1 : Int) ≠ 15 ∧ (1 : Int) ≠ 5) := by
  refine ⟨rfl, rfl, rfl, by decide⟩

/-- C6 (amended): with the gear not "R"/"D", the 5/15 charging tier
applies exactly when the stored `charging_state` reads "charging"
case-insensitively (5 when `fast_charger_present` equals the string
"true", else 15); a state the classifier labels charging through any
other rule (e.g. "starting", residual voltage, imminent scheduled
charge) instead yields `a_awake_poll_secs` through the changed
branch. -/
theorem c6_amended_charging_tier (cfg : Config) (s : Store) (resp : Response)
    (now interval : Int) (count : Nat)
    (hR : fget (sget (processCats s resp requests).1 "drive_state") "shift_state" (Val.str "")
            ≠ Val.str "R")
    (hD : fget (sget (processCats s resp requests).1 "drive_state") "shift_state" (Val.str "")
            ≠ Val.str "D") :
    (valLower (fget (sget (processCats s resp requests).1 "charge_state") "charging_state"
        (Val.str "")) = "charging" →
      (check_states cfg s (FetchResult.ok resp) now interval count).interval =
        (if fget (sget (processCats s resp requests).1 "charge_state") "fast_charger_present"
            (Val.str "") = Val.str "true" then 5 else 15)) ∧
    ((ongoing_activity_status (processCats s resp requests).1 now = "charging" ∧
      valLower (fget (sget (processCats s resp requests).1 "charge_state") "charging_state"
        (Val.str "")) ≠ "charging") →
      (check_states cfg s (FetchResult.ok resp) now interval count).interval
          = cfg.a_awake_poll_secs) := by
  constructor
  · intro hch
    rw [check_states_ok_eq]
    dsimp only
    rw [if_neg (not_or.mpr ⟨hR, hD⟩), if_neg (not_or.mpr ⟨hR, hD⟩),
        core_charging cfg _ _ _ count hch]
  · rintro ⟨hlab, hch⟩
    have hb : (request_state_group s resp now).2 = true := by
      unfold request_state_group
      dsimp only
      rw [labelLower, hlab]
      rfl
    rw [check_states_ok_eq]
    dsimp only
    rw [if_neg (not_or.mpr ⟨hR, hD⟩), if_neg (not_or.mpr ⟨hR, hD⟩), hb,
        core_change cfg _ interval count hch]

/-- C6 witness: `charging_state` "Charging" without a fast charger
yields 15; `charging_state` "Starting" (classifier: charging) yields
the awake interval. -/
theorem c6_witness :
    (check_states cfg1 initStore (FetchResult.ok respCharging) 0 30 0).interval = 15 ∧
    (check_states cfg1 initStore (FetchResult.ok resp6) 2 30 0).interval
        = cfg1.a_awake_poll_secs := by
  have h1 := (c6_amended_charging_tier cfg1 initStore respCharging 0 30 0
    (by decide) (by decide)).1 (by decide)
  have h2 := (c6_amended_charging_tier cfg1 initStore resp6 2 30 0
    (by decide) (by decide)).2 (by decide)
  exact ⟨h1.trans (by decide), h2⟩
